import Mathlib

/-!
Verification of the Tremor-Pro Random Forest classifier pipeline
(`ai_dashboard/backend/ml/`): feature extraction, rule-based labeling,
synthetic data generation, and batch/single-window inference.

Band powers, motion magnitudes and probabilities are embedded as exact
rationals (`ℚ`); the Python floats are IEEE doubles, but every comparison
and arithmetic step of the source is mirrored one-for-one, so rational
arithmetic is the faithful idealisation.  External library primitives
(numpy RNG, sklearn predict_proba) are modelled as explicit parameters or
deterministic stand-ins, documented at their definitions.
-/

namespace TremorPro

/-- The fixed class list, `CLASSES` in features.py (index 0 = no_tremor). -/
def CLASSES : List String := ["no_tremor", "parkinsonian", "essential", "physiological"]

/-- `IDX_TO_CLASS`: stable index-to-name mapping over the four classes. -/
def className : Fin 4 → String
  | 0 => "no_tremor"
  | 1 => "parkinsonian"
  | 2 => "essential"
  | 3 => "physiological"

/-- `NOISE_FLOOR` from features.py. -/
def NOISE_FLOOR : ℚ := 1/100

/-- The `eps = 1e-6` guard used inside `extract_features_single`. -/
def eps : ℚ := 1/1000000

/-- One band of the noise-floor zeroing at the top of
`label_window_rule_based`: `a = b if b > NOISE_FLOOR else 0`. -/
def zeroBand (b : ℚ) : ℚ := if b > NOISE_FLOOR then b else 0

/-- Total band power after noise-floor zeroing (`total = a1 + a2 + a3`). -/
def zeroedTotal (b1 b2 b3 : ℚ) : ℚ := zeroBand b1 + zeroBand b2 + zeroBand b3

/-- `bands.max() / (bands.min() + eps)` from `extract_features_single`. -/
def dom_ratio (b1 b2 b3 : ℚ) : ℚ := max b1 (max b2 b3) / (min b1 (min b2 b3) + eps)

/-- `np.dot(bands, [0,1,2]) / (total + eps)` from `extract_features_single`. -/
def spectral_centroid (b1 b2 b3 : ℚ) : ℚ :=
  (b1 * 0 + b2 * 1 + b3 * 2) / ((b1 + b2 + b3) + eps)

/-- `extract_features_single` from features.py: the 7-element feature row
`[b1, b2, b3, total_power, meanNorm, dom_ratio, spectral_centroid]`. -/
def extract_features_single (b1 b2 b3 mean_norm : ℚ) : List ℚ :=
  [b1, b2, b3, b1 + b2 + b3, mean_norm, dom_ratio b1 b2 b3, spectral_centroid b1 b2 b3]

/-- `label_window_rule_based` from features.py, with the Python
`max(bands, key=bands.get)` fallback expanded to its first-maximum
semantics over insertion order (parkinsonian, essential, physiological):
the running maximum is replaced only on a strictly larger value, so the
result is physiological iff a3 strictly exceeds both a1 and a2, otherwise
essential iff a2 strictly exceeds a1, otherwise parkinsonian. -/
def label_window_rule_based (b1 b2 b3 mean_norm : ℚ) : String :=
  if zeroedTotal b1 b2 b3 < NOISE_FLOOR then "no_tremor"
  else if mean_norm > 7/10 ∧ zeroedTotal b1 b2 b3 < 5 then "no_tremor"
  else if zeroBand b1 > zeroBand b2 ∧ zeroBand b1 > zeroBand b3 ∧ zeroBand b1 > 3/10 then
    "parkinsonian"
  else if zeroBand b2 > zeroBand b1 ∧ zeroBand b2 > zeroBand b3 ∧ zeroBand b2 > 3/10 then
    "essential"
  else if zeroBand b3 > zeroBand b1 ∧ zeroBand b3 > zeroBand b2 ∧ zeroBand b3 > 3/10 then
    "physiological"
  else if zeroedTotal b1 b2 b3 > 1/20 then
    if zeroBand b3 > zeroBand b1 ∧ zeroBand b3 > zeroBand b2 then "physiological"
    else if zeroBand b2 > zeroBand b1 then "essential"
    else "parkinsonian"
  else "no_tremor"

/-- The labelling rule exactly as the claim words it, for the region where
the noise-floor and voluntary-movement guards do not fire: a band wins
outright when it exceeds each of the other two by more than 0.3; when no
band clears that dominance margin, the single largest band wins if the
total power exceeds 0.05 (ties to the first of parkinsonian, essential,
physiological), and otherwise the label is no_tremor. -/
def label_claimed (b1 b2 b3 : ℚ) : String :=
  if zeroBand b1 > zeroBand b2 + 3/10 ∧ zeroBand b1 > zeroBand b3 + 3/10 then
    "parkinsonian"
  else if zeroBand b2 > zeroBand b1 + 3/10 ∧ zeroBand b2 > zeroBand b3 + 3/10 then
    "essential"
  else if zeroBand b3 > zeroBand b1 + 3/10 ∧ zeroBand b3 > zeroBand b2 + 3/10 then
    "physiological"
  else if zeroedTotal b1 b2 b3 > 1/20 then
    if zeroBand b3 > zeroBand b1 ∧ zeroBand b3 > zeroBand b2 then "physiological"
    else if zeroBand b2 > zeroBand b1 then "essential"
    else "parkinsonian"
  else "no_tremor"

theorem zeroBand_nonneg (b : ℚ) : 0 ≤ zeroBand b := by
  unfold zeroBand NOISE_FLOOR
  split_ifs with h
  · linarith
  · exact le_refl 0

set_option maxHeartbeats 3200000 in
/-- C1: on every window where the zeroed total band power reaches the 0.01
noise floor and the voluntary-movement guard does not fire,
`label_window_rule_based` agrees with the claimed rule: the class of the band
that dominates both others by more than 0.3, else (total > 0.05) the largest
band's class with ties to the first of parkinsonian, essential,
physiological, else no_tremor. -/
theorem c1_dominance_rule (b1 b2 b3 mean_norm : ℚ)
    (h1 : NOISE_FLOOR ≤ zeroedTotal b1 b2 b3)
    (h2 : ¬ (mean_norm > 7/10 ∧ zeroedTotal b1 b2 b3 < 5)) :
    label_window_rule_based b1 b2 b3 mean_norm = label_claimed b1 b2 b3 := by
  have ha1 := zeroBand_nonneg b1
  have ha2 := zeroBand_nonneg b2
  have ha3 := zeroBand_nonneg b3
  rw [label_window_rule_based, if_neg (not_lt.mpr h1), if_neg h2, label_claimed]
  clear h1 h2
  simp only [zeroedTotal]
  set a1 := zeroBand b1
  set a2 := zeroBand b2
  set a3 := zeroBand b3
  by_cases hC1 : a1 > a2 ∧ a1 > a3 ∧ a1 > 3/10
  · obtain ⟨g12, g13, g03⟩ := hC1
    rw [if_pos ⟨g12, g13, g03⟩]
    by_cases hD1 : a1 > a2 + 3/10 ∧ a1 > a3 + 3/10
    · rw [if_pos hD1]
    · have hnD2 : ¬(a2 > a1 + 3/10 ∧ a2 > a3 + 3/10) := by rintro ⟨u, v⟩; linarith
      have hnD3 : ¬(a3 > a1 + 3/10 ∧ a3 > a2 + 3/10) := by rintro ⟨u, v⟩; linarith
      have hT : a1 + a2 + a3 > 1/20 := by linarith
      have hnM1 : ¬(a3 > a1 ∧ a3 > a2) := by rintro ⟨u, v⟩; linarith
      have hnM2 : ¬(a2 > a1) := by linarith
      rw [if_neg hD1, if_neg hnD2, if_neg hnD3, if_pos hT, if_neg hnM1, if_neg hnM2]
  · by_cases hC2 : a2 > a1 ∧ a2 > a3 ∧ a2 > 3/10
    · obtain ⟨g21, g23, g03⟩ := hC2
      rw [if_neg hC1, if_pos ⟨g21, g23, g03⟩]
      have hnD1 : ¬(a1 > a2 + 3/10 ∧ a1 > a3 + 3/10) := by rintro ⟨u, v⟩; linarith
      by_cases hD2 : a2 > a1 + 3/10 ∧ a2 > a3 + 3/10
      · rw [if_neg hnD1, if_pos hD2]
      · have hnD3 : ¬(a3 > a1 + 3/10 ∧ a3 > a2 + 3/10) := by rintro ⟨u, v⟩; linarith
        have hT : a1 + a2 + a3 > 1/20 := by linarith
        have hnM1 : ¬(a3 > a1 ∧ a3 > a2) := by rintro ⟨u, v⟩; linarith
        rw [if_neg hnD1, if_neg hD2, if_neg hnD3, if_pos hT, if_neg hnM1, if_pos g21]
    · by_cases hC3 : a3 > a1 ∧ a3 > a2 ∧ a3 > 3/10
      · obtain ⟨g31, g32, g03⟩ := hC3
        rw [if_neg hC1, if_neg hC2, if_pos ⟨g31, g32, g03⟩]
        have hnD1 : ¬(a1 > a2 + 3/10 ∧ a1 > a3 + 3/10) := by rintro ⟨u, v⟩; linarith
        have hnD2 : ¬(a2 > a1 + 3/10 ∧ a2 > a3 + 3/10) := by rintro ⟨u, v⟩; linarith
        by_cases hD3 : a3 > a1 + 3/10 ∧ a3 > a2 + 3/10
        · rw [if_neg hnD1, if_neg hnD2, if_pos hD3]
        · have hT : a1 + a2 + a3 > 1/20 := by linarith
          rw [if_neg hnD1, if_neg hnD2, if_neg hD3, if_pos hT, if_pos ⟨g31, g32⟩]
      · have hnD1 : ¬(a1 > a2 + 3/10 ∧ a1 > a3 + 3/10) := by
          rintro ⟨u, v⟩
          exact hC1 ⟨by linarith, by linarith, by linarith⟩
        have hnD2 : ¬(a2 > a1 + 3/10 ∧ a2 > a3 + 3/10) := by
          rintro ⟨u, v⟩
          exact hC2 ⟨by linarith, by linarith, by linarith⟩
        have hnD3 : ¬(a3 > a1 + 3/10 ∧ a3 > a2 + 3/10) := by
          rintro ⟨u, v⟩
          exact hC3 ⟨by linarith, by linarith, by linarith⟩
        rw [if_neg hC1, if_neg hC2, if_neg hC3, if_neg hnD1, if_neg hnD2, if_neg hnD3]

theorem c1_witness :
    label_window_rule_based 5 (1/2) (3/10) (1/5) = label_claimed 5 (1/2) (3/10) ∧
    label_window_rule_based 5 (1/2) (3/10) (1/5) = "parkinsonian" :=
  ⟨c1_dominance_rule 5 (1/2) (3/10) (1/5)
      (by norm_num [zeroedTotal, zeroBand, NOISE_FLOOR])
      (by norm_num),
   by norm_num [label_window_rule_based, zeroedTotal, zeroBand, NOISE_FLOOR]⟩

/-- C9: whenever the motion magnitude exceeds 0.7 and the noise-floor-zeroed
total band power is below 5, `label_window_rule_based` returns no_tremor
(either through the noise-floor rule or the voluntary-movement guard). -/
theorem c9_voluntary_movement_guard (b1 b2 b3 mean_norm : ℚ)
    (hm : mean_norm > 7/10) (ht : zeroedTotal b1 b2 b3 < 5) :
    label_window_rule_based b1 b2 b3 mean_norm = "no_tremor" := by
  by_cases h1 : zeroedTotal b1 b2 b3 < NOISE_FLOOR
  · rw [label_window_rule_based, if_pos h1]
  · rw [label_window_rule_based, if_neg h1, if_pos ⟨hm, ht⟩]

theorem c9_witness :
    label_window_rule_based 1 (1/10) (1/10) (9/10) = "no_tremor" :=
  c9_voluntary_movement_guard 1 (1/10) (1/10) (9/10) (by norm_num)
    (by norm_num [zeroedTotal, zeroBand, NOISE_FLOOR])

/-- C2 is false as stated: at b1=b2=b3=1 (and v=1>0) the feature vector has
dom_ratio = 1/(1+1e-6) and spectral_centroid = 3/(3+1e-6), neither of which
equals 1.0 exactly, because of the 1e-6 epsilon in each denominator. -/
theorem c2_counterexample :
    (extract_features_single 1 1 1 0).getD 5 0 ≠ 1 ∧
    (extract_features_single 1 1 1 0).getD 6 0 ≠ 1 := by
  constructor <;>
    norm_num [extract_features_single, dom_ratio, spectral_centroid, eps]

/-- C2 (amended): for every input with b1=b2=b3=v and v>0, the feature
vector has dom_ratio (index 5) equal to v/(v+1e-6) and spectral_centroid
(index 6) equal to 3v/(3v+1e-6); both lie strictly below 1. -/
theorem c2_amended (v m : ℚ) (hv : 0 < v) :
    (extract_features_single v v v m).getD 5 0 = v / (v + eps) ∧
    (extract_features_single v v v m).getD 6 0 = 3*v / (3*v + eps) ∧
    (extract_features_single v v v m).getD 5 0 < 1 ∧
    (extract_features_single v v v m).getD 6 0 < 1 := by
  have he : (0:ℚ) < eps := by norm_num [eps]
  have h5 : (extract_features_single v v v m).getD 5 0 = v / (v + eps) := by
    simp [extract_features_single, dom_ratio, max_self, min_self]
  have h6 : (extract_features_single v v v m).getD 6 0 = 3*v / (3*v + eps) := by
    simp only [extract_features_single, spectral_centroid, List.getD]
    rw [show v*0 + v*1 + v*2 = 3*v by ring, show v + v + v = 3*v by ring]
    rfl
  refine ⟨h5, h6, ?_, ?_⟩
  · rw [h5, div_lt_one (by linarith)]; linarith
  · rw [h6, div_lt_one (by linarith)]; linarith

theorem c2_amended_witness :
    (0:ℚ) < 1 ∧ (extract_features_single 1 1 1 0).getD 5 0 = 1 / (1 + eps) :=
  ⟨by norm_num, (c2_amended 1 0 (by norm_num)).1⟩

/-- C3 is false as stated: with all three bands equal to 1e-6 (strictly
positive), dom_ratio evaluates to (1e-6)/(2e-6) = 1/2 < 1, violating the
claimed invariant dom_ratio ≥ 1 for all-positive bands. -/
theorem c3_counterexample :
    (0:ℚ) < 1/1000000 ∧
    (extract_features_single (1/1000000) (1/1000000) (1/1000000) 0).getD 5 0 < 1 := by
  constructor
  · norm_num
  · norm_num [extract_features_single, dom_ratio, eps, max_self, min_self]

/-- C3 (amended): dom_ratio ≥ 1 holds for all-positive bands only when the
largest band exceeds the smallest by at least the 1e-6 epsilon; the
spectral_centroid bound [0,2] holds as claimed for all non-negative bands. -/
theorem c3_amended (b1 b2 b3 m : ℚ) :
    ((0 < b1 → 0 < b2 → 0 < b3 →
       min b1 (min b2 b3) + eps ≤ max b1 (max b2 b3) →
       1 ≤ (extract_features_single b1 b2 b3 m).getD 5 0) ∧
     (0 ≤ b1 → 0 ≤ b2 → 0 ≤ b3 →
       0 ≤ (extract_features_single b1 b2 b3 m).getD 6 0 ∧
       (extract_features_single b1 b2 b3 m).getD 6 0 ≤ 2)) := by
  have he : (0:ℚ) < eps := by norm_num [eps]
  constructor
  · intro h1 h2 h3 hd
    have hmin : 0 < min b1 (min b2 b3) := lt_min h1 (lt_min h2 h3)
    have hg : (extract_features_single b1 b2 b3 m).getD 5 0 = dom_ratio b1 b2 b3 := by
      simp [extract_features_single]
    rw [hg, dom_ratio, le_div_iff₀ (by linarith)]
    linarith
  · intro h1 h2 h3
    have hg : (extract_features_single b1 b2 b3 m).getD 6 0 =
        spectral_centroid b1 b2 b3 := by
      simp [extract_features_single]
    rw [hg, spectral_centroid]
    constructor
    · exact div_nonneg (by linarith) (by linarith)
    · rw [div_le_iff₀ (by linarith)]; linarith

theorem c3_amended_witness :
    1 ≤ (extract_features_single 1 2 3 0).getD 5 0 ∧
    (extract_features_single 1 2 3 0).getD 6 0 ≤ 2 :=
  ⟨(c3_amended 1 2 3 0).1 (by norm_num) (by norm_num) (by norm_num)
     (by norm_num [eps, min_def, max_def]),
   ((c3_amended 1 2 3 0).2 (by norm_num) (by norm_num) (by norm_num)).2⟩

/-- A window record: the parsed form of the per-window dict consumed by
`extract_features_batch` (keys b1, b2, b3, meanNorm). -/
structure Window where
  b1 : ℚ
  b2 : ℚ
  b3 : ℚ
  meanNorm : ℚ

/-- `extract_features_batch` from features.py: one feature row per window. -/
def extract_features_batch (ws : List Window) : List (List ℚ) :=
  ws.map fun w => extract_features_single w.b1 w.b2 w.b3 w.meanNorm

/-- Model of a loaded sklearn RandomForest artifact.  Only its
`predict_proba` row function is visible to model.py: it maps a feature row
to the four class probabilities.  The forest internals are opaque library
state; where a claim depends on predict_proba rows being probability
distributions, that library contract is an explicit hypothesis. -/
structure Model where
  proba : List ℚ → Fin 4 → ℚ

/-- `np.argmax` over a 4-entry probability row: the first index attaining
the maximum (numpy keeps the earliest occurrence on ties). -/
def argmax4 (p : Fin 4 → ℚ) : Fin 4 :=
  if p 0 ≥ p 1 ∧ p 0 ≥ p 2 ∧ p 0 ≥ p 3 then 0
  else if p 1 ≥ p 2 ∧ p 1 ≥ p 3 then 1
  else if p 2 ≥ p 3 then 2
  else 3

/-- Result dict of `classify_window` and `_fallback_classify`. -/
structure WindowResult where
  prediction : String
  tremor_type : String
  is_tremor : Bool
  confidence : ℚ
  probabilities : List (String × ℚ)
  model_version : String

/-- `_fallback_classify` from model.py: rule-based label wrapped with a
synthesized confidence and the 0.9 / (0.1/3) fake distribution. -/
def fallback_classify (b1 b2 b3 mean_norm : ℚ) : WindowResult :=
  let label := label_window_rule_based b1 b2 b3 mean_norm
  let total := b1 + b2 + b3
  let conf : ℚ := if total > 1/100 then max b1 (max b2 b3) / (total + 1/1000000) else 1
  { prediction := label
    tremor_type := if label = "no_tremor" then "none" else label
    is_tremor := label != "no_tremor"
    confidence := min conf 1
    probabilities := CLASSES.map fun c => (c, if c = label then 9/10 else 1/10/3)
    model_version := "rule_based_fallback" }

/-- `classify_window` from model.py.  The cached-model global is the `mo`
argument (none when no artifact exists on disk); the wall-clock date used
only in model_version is passed in as `today`. -/
def classify_window (mo : Option Model) (today : String)
    (b1 b2 b3 mean_norm : ℚ) : WindowResult :=
  match mo with
  | none => fallback_classify b1 b2 b3 mean_norm
  | some clf =>
    let proba := clf.proba (extract_features_single b1 b2 b3 mean_norm)
    let predLabel := className (argmax4 proba)
    { prediction := predLabel
      tremor_type := if predLabel = "no_tremor" then "none" else predLabel
      is_tremor := predLabel != "no_tremor"
      confidence := proba (argmax4 proba)
      probabilities := (List.finRange 4).map fun i => (className i, proba i)
      model_version := "rf_v1_" ++ today }

/-- Per-window argmax predictions of a batch (`preds` in classify_batch). -/
def batchPreds (clf : Model) (ws : List Window) : List (Fin 4) :=
  (extract_features_batch ws).map fun f => argmax4 (clf.proba f)

/-- Number of windows predicted as class c (one entry of `counts` from
`np.unique(preds, return_counts=True)`). -/
def predCount (preds : List (Fin 4)) (c : Fin 4) : ℕ := preds.count c

/-- `np.unique(preds, return_counts=True)` over class indices 0..3:
unique values in ascending order, each paired with its count. -/
def uniqueCounts (preds : List (Fin 4)) : List (Fin 4 × ℕ) :=
  (List.finRange 4).filterMap fun c =>
    if predCount preds c = 0 then none else some (c, predCount preds c)

/-- `unique[np.argmax(counts)]`: np.argmax keeps the earliest maximum, so
the fold replaces the running best only on a strictly larger count. -/
def firstMaxPair (l : List (Fin 4 × ℕ)) : Fin 4 × ℕ :=
  match l with
  | [] => (0, 0)
  | x :: xs => xs.foldl (fun best y => if y.2 > best.2 then y else best) x

/-- Dominant class index of a batch prediction list. -/
def domIdx (preds : List (Fin 4)) : Fin 4 := (firstMaxPair (uniqueCounts preds)).1

/-- Aggregate payload of a successful `classify_batch`. -/
structure BatchOk where
  n_windows : ℕ
  dominant_prediction : String
  is_tremor : Bool
  tremor_fraction : ℚ
  class_counts : List (String × ℕ)
  mean_probabilities : List (String × ℚ)
  per_window : List (String × ℚ)
  model_version : String

/-- Result of `classify_batch`: the error dict or the aggregate dict. -/
inductive BatchResult where
  | error (msg : String)
  | ok (r : BatchOk)

/-- The error message of the degraded `classify_batch` result. -/
def batchErrorMsg : String := "No model loaded or empty input"

/-- `classify_batch` from model.py. -/
def classify_batch (mo : Option Model) (today : String) (ws : List Window) :
    BatchResult :=
  match mo with
  | none => BatchResult.error batchErrorMsg
  | some clf =>
    if ws.length = 0 then BatchResult.error batchErrorMsg
    else
      let preds := batchPreds clf ws
      let dominant := className (domIdx preds)
      BatchResult.ok {
        n_windows := ws.length
        dominant_prediction := dominant
        is_tremor := dominant != "no_tremor"
        tremor_fraction :=
          ((preds.filter fun p => p != 0).length : ℚ) / (preds.length : ℚ)
        class_counts := (uniqueCounts preds).map fun ck => (className ck.1, ck.2)
        mean_probabilities := (List.finRange 4).map fun i =>
          (className i,
           ((extract_features_batch ws).map fun f => clf.proba f i).sum / (ws.length : ℚ))
        per_window := (extract_features_batch ws).map fun f =>
          (className (argmax4 (clf.proba f)), clf.proba f (argmax4 (clf.proba f)))
        model_version := "rf_v1_" ++ today }

/-- Whether a `classify_batch` result is the error-shaped dict. -/
def BatchResult.isError : BatchResult → Bool
  | .error _ => true
  | .ok _ => false

/-- The dominant_prediction field of a successful batch result. -/
def BatchResult.dominantPrediction : BatchResult → Option String
  | .error _ => none
  | .ok r => some r.dominant_prediction

/-- The class_counts field of a successful batch result. -/
def BatchResult.classCountsOf : BatchResult → List (String × ℕ)
  | .error _ => []
  | .ok r => r.class_counts

theorem finRange4 : List.finRange 4 = [0, 1, 2, 3] := by decide

theorem count_four (preds : List (Fin 4)) :
    predCount preds 0 + predCount preds 1 + predCount preds 2 + predCount preds 3 =
      preds.length := by
  induction preds with
  | nil => rfl
  | cons x xs ih =>
    simp only [predCount, List.count_cons] at *
    fin_cases x <;> simp <;> omega

set_option maxHeartbeats 1600000 in
theorem domIdx_spec8 (preds : List (Fin 4)) (h : preds ≠ []) :
    (predCount preds 0 ≤ predCount preds (domIdx preds)) ∧
    (predCount preds 1 ≤ predCount preds (domIdx preds)) ∧
    (predCount preds 2 ≤ predCount preds (domIdx preds)) ∧
    (predCount preds 3 ≤ predCount preds (domIdx preds)) ∧
    (predCount preds 0 = predCount preds (domIdx preds) → domIdx preds ≤ 0) ∧
    (predCount preds 1 = predCount preds (domIdx preds) → domIdx preds ≤ 1) ∧
    (predCount preds 2 = predCount preds (domIdx preds) → domIdx preds ≤ 2) ∧
    (predCount preds 3 = predCount preds (domIdx preds) → domIdx preds ≤ 3) := by
  have hc := count_four preds
  have hlen : preds.length ≠ 0 := fun hl => h (List.length_eq_zero.mp hl)
  by_cases h0 : predCount preds 0 = 0 <;>
    by_cases h1 : predCount preds 1 = 0 <;>
      by_cases h2 : predCount preds 2 = 0 <;>
        by_cases h3 : predCount preds 3 = 0
  all_goals
    simp only [domIdx, uniqueCounts, finRange4, h0, h1, h2, h3, List.filterMap_cons,
      List.filterMap_nil, if_true, if_false, reduceIte, firstMaxPair, List.foldl]
  all_goals try split_ifs
  all_goals try dsimp only
  all_goals
    refine ⟨?_, ?_, ?_, ?_, ?_, ?_, ?_, ?_⟩ <;> omega

theorem domIdx_spec (preds : List (Fin 4)) (h : preds ≠ []) :
    (∀ c, predCount preds c ≤ predCount preds (domIdx preds)) ∧
    (∀ c, predCount preds c = predCount preds (domIdx preds) → domIdx preds ≤ c) := by
  obtain ⟨u0, u1, u2, u3, v0, v1, v2, v3⟩ := domIdx_spec8 preds h
  constructor
  · intro c
    fin_cases c
    · exact u0
    · exact u1
    · exact u2
    · exact u3
  · intro c
    fin_cases c
    · exact v0
    · exact v1
    · exact v2
    · exact v3

/-- A fixed date string standing in for `date.today().isoformat()`. -/
def today0 : String := "2026-10-12"

/-- A concrete model whose predict_proba is the uniform distribution,
used to instantiate hypotheses at concrete inputs. -/
def model0 : Model := ⟨fun _ _ => 1/4⟩

/-- A concrete window. -/
def window0 : Window := ⟨1, 1, 1, 0⟩

/-- C4: with no model loaded or an empty window list, `classify_batch`
returns the explicit error-shaped result; being a total function of its
inputs, it raises nothing. -/
theorem c4_batch_error_result (mo : Option Model) (today : String)
    (ws : List Window) (h : mo = none ∨ ws = []) :
    classify_batch mo today ws = BatchResult.error batchErrorMsg := by
  rcases h with h | h
  · subst h; rfl
  · subst h
    cases mo with
    | none => rfl
    | some clf => rfl

theorem c4_witness :
    classify_batch none today0 [] = BatchResult.error batchErrorMsg :=
  c4_batch_error_result none today0 [] (Or.inl rfl)

/-- C7: in the plurality vote of `classify_batch` the dominant prediction
is the class whose per-window prediction count is maximal, and among all
classes attaining that maximal count, the one with the lowest class index
(np.unique sorts ascending and np.argmax keeps the earliest maximum). -/
theorem c7_plurality_tiebreak (clf : Model) (today : String) (ws : List Window)
    (h : ws ≠ []) :
    (classify_batch (some clf) today ws).dominantPrediction =
      some (className (domIdx (batchPreds clf ws))) ∧
    (∀ c, predCount (batchPreds clf ws) c ≤
      predCount (batchPreds clf ws) (domIdx (batchPreds clf ws))) ∧
    (∀ c, predCount (batchPreds clf ws) c =
        predCount (batchPreds clf ws) (domIdx (batchPreds clf ws)) →
      domIdx (batchPreds clf ws) ≤ c) := by
  have hne : batchPreds clf ws ≠ [] := by
    cases ws with
    | nil => exact absurd rfl h
    | cons w rest => simp [batchPreds, extract_features_batch]
  obtain ⟨hmax, hmin⟩ := domIdx_spec (batchPreds clf ws) hne
  refine ⟨?_, hmax, hmin⟩
  cases ws with
  | nil => exact absurd rfl h
  | cons w rest => rfl

theorem c7_witness :
    (classify_batch (some model0) today0 [window0]).dominantPrediction =
      some (className (domIdx (batchPreds model0 [window0]))) :=
  (c7_plurality_tiebreak model0 today0 [window0] (by simp)).1

/-- Membership in the np.unique model: a (class, count) pair occurs in
`uniqueCounts preds` exactly when the class occurs in preds, and its count
is the prediction count. -/
theorem mem_uniqueCounts (preds : List (Fin 4)) (ck : Fin 4 × ℕ) :
    ck ∈ uniqueCounts preds ↔
      predCount preds ck.1 ≠ 0 ∧ ck.2 = predCount preds ck.1 := by
  obtain ⟨c, k⟩ := ck
  constructor
  · intro hm
    rw [uniqueCounts] at hm
    obtain ⟨a, ha, hfa⟩ := List.mem_filterMap.mp hm
    by_cases hz : predCount preds a = 0
    · rw [if_pos hz] at hfa
      exact absurd hfa (by simp)
    · rw [if_neg hz] at hfa
      have hpair := Option.some.inj hfa
      have hc : a = c := congrArg Prod.fst hpair
      have hk : predCount preds a = k := congrArg Prod.snd hpair
      subst hc
      exact ⟨hz, hk.symm⟩
  · rintro ⟨hnz, hk⟩
    rw [uniqueCounts]
    refine List.mem_filterMap.mpr ⟨c, List.mem_finRange c, ?_⟩
    dsimp only at hnz hk
    rw [if_neg hnz, ← hk]

/-- The four class names are pairwise distinct, so `className` is
injective. -/
theorem className_inj (i j : Fin 4) (h : className i = className j) : i = j := by
  fin_cases i <;> fin_cases j <;> first | rfl | exact absurd h (by decide)

/-- C10: the class_counts mapping of a successful `classify_batch` carries
the name of a class exactly when that class was predicted for at least one
window, and no entry of the mapping is 0. -/
theorem c10_class_counts_present (clf : Model) (today : String)
    (ws : List Window) (h : ws ≠ []) :
    (∀ c : Fin 4,
      className c ∈ ((classify_batch (some clf) today ws).classCountsOf.map Prod.fst) ↔
        predCount (batchPreds clf ws) c ≠ 0) ∧
    (∀ p ∈ (classify_batch (some clf) today ws).classCountsOf, p.2 ≠ 0) := by
  have hcc : (classify_batch (some clf) today ws).classCountsOf =
      (uniqueCounts (batchPreds clf ws)).map fun ck => (className ck.1, ck.2) := by
    cases ws with
    | nil => exact absurd rfl h
    | cons w rest => rfl
  rw [hcc]
  constructor
  · intro c
    rw [List.map_map, List.mem_map]
    constructor
    · rintro ⟨ck, hm, hname⟩
      obtain ⟨hnz, hk⟩ := (mem_uniqueCounts _ ck).mp hm
      have : ck.1 = c := className_inj ck.1 c hname
      rw [← this]
      exact hnz
    · intro hnz
      exact ⟨(c, predCount (batchPreds clf ws) c),
        (mem_uniqueCounts _ _).mpr ⟨hnz, rfl⟩, rfl⟩
  · intro p hp
    rw [List.mem_map] at hp
    obtain ⟨ck, hm, hpk⟩ := hp
    obtain ⟨hnz, hk⟩ := (mem_uniqueCounts _ ck).mp hm
    have : p.2 = ck.2 := (congrArg Prod.snd hpk).symm
    rw [this, hk]
    exact hnz

theorem c10_witness :
    className 0 ∈
      ((classify_batch (some model0) today0 [window0]).classCountsOf.map Prod.fst) ↔
    predCount (batchPreds model0 [window0]) 0 ≠ 0 :=
  (c10_class_counts_present model0 today0 [window0] (by simp)).1 0

/-- Sum of the probability values in a window result. -/
def probSum (r : WindowResult) : ℚ := (r.probabilities.map Prod.snd).sum

/-- The rule-based labeler only ever returns one of the four class names. -/
theorem label_rule_based_cases (b1 b2 b3 m : ℚ) :
    label_window_rule_based b1 b2 b3 m = "no_tremor" ∨
    label_window_rule_based b1 b2 b3 m = "parkinsonian" ∨
    label_window_rule_based b1 b2 b3 m = "essential" ∨
    label_window_rule_based b1 b2 b3 m = "physiological" := by
  rw [label_window_rule_based]
  split_ifs <;>
    first
      | exact Or.inl rfl
      | exact Or.inr (Or.inl rfl)
      | exact Or.inr (Or.inr (Or.inl rfl))
      | exact Or.inr (Or.inr (Or.inr rfl))

/-- C8: the probability mapping of `classify_window` sums to 1 within 1e-6
on both paths: on the model path it passes the predict_proba row through
unchanged (the sklearn contract that rows sum to 1 is the hypothesis), and
on the fallback path the chosen label gets 0.9 and each other class 0.1/3,
summing to exactly 1. -/
theorem c8_probabilities_sum_one (mo : Option Model) (today : String)
    (b1 b2 b3 m : ℚ)
    (h : ∀ clf, mo = some clf → ∀ f,
      clf.proba f 0 + clf.proba f 1 + clf.proba f 2 + clf.proba f 3 = 1) :
    |probSum (classify_window mo today b1 b2 b3 m) - 1| ≤ 1/1000000 := by
  cases mo with
  | some clf =>
    have hs := h clf rfl (extract_features_single b1 b2 b3 m)
    have hred : probSum (classify_window (some clf) today b1 b2 b3 m) =
        clf.proba (extract_features_single b1 b2 b3 m) 0 +
        (clf.proba (extract_features_single b1 b2 b3 m) 1 +
         (clf.proba (extract_features_single b1 b2 b3 m) 2 +
          (clf.proba (extract_features_single b1 b2 b3 m) 3 + 0))) := by
      simp [probSum, classify_window, finRange4]
    have hone : probSum (classify_window (some clf) today b1 b2 b3 m) = 1 := by
      rw [hred]; linarith
    rw [hone]
    norm_num
  | none =>
    have hred : probSum (classify_window none today b1 b2 b3 m) =
        ((CLASSES.map fun c =>
          (c, if c = label_window_rule_based b1 b2 b3 m then (9:ℚ)/10 else 1/10/3)).map
            Prod.snd).sum := rfl
    rcases label_rule_based_cases b1 b2 b3 m with hl | hl | hl | hl <;>
      rw [hred, hl] <;>
      simp only [CLASSES, List.map_cons, List.map_nil, List.sum_cons, List.sum_nil,
        String.reduceEq, reduceIte] <;>
      norm_num

theorem c8_witness :
    |probSum (classify_window (some model0) today0 1 1 1 0) - 1| ≤ 1/1000000 :=
  c8_probabilities_sum_one (some model0) today0 1 1 1 0
    (by rintro clf hclf f; cases Option.some.inj hclf; norm_num [model0])

/-- Model of a seeded `np.random.default_rng` generator: the seed together
with a draw counter.  numpy's PCG64 bit generator is external library
code; the stated claims depend only on the stream of draws being a pure
function of (seed, counter), which `randQ` realises with an explicit
(arbitrary but fixed) congruential formula. -/
structure Rng where
  seed : ℕ
  counter : ℕ

/-- One raw draw in [0,1): a deterministic function of (seed, counter)
standing in for the PCG64 output word. -/
def randQ (seed i : ℕ) : ℚ :=
  (((seed + 1) * 6364136223846793005 + i * 1442695040888963407) % 1000003 : ℕ) / 1000003

/-- Advance the generator by one draw. -/
def rngNext (r : Rng) : ℚ × Rng := (randQ r.seed r.counter, ⟨r.seed, r.counter + 1⟩)

/-- `rng.uniform(lo, hi)` (`_sample_uniform` in train_model.py). -/
def sample_uniform (lo hi : ℚ) (r : Rng) : ℚ × Rng :=
  let u := rngNext r
  (lo + (hi - lo) * u.1, u.2)

/-- `_sample_log_uniform`: exp(uniform(log lo, log hi)).  exp and log are
transcendental, so the model keeps the draw structure (exactly one draw,
the `lo <= 0` clamp to 1e-6 mirrored) and maps the draw through a fixed
rational interpolation of the range, which is all the stated claims
depend on. -/
def sample_log_uniform (lo hi : ℚ) (r : Rng) : ℚ × Rng :=
  let lo2 := if lo ≤ 0 then 1/1000000 else lo
  let u := rngNext r
  (lo2 + (hi - lo2) * u.1, u.2)

/-- `rng.normal(0, std)`: one draw mapped onto a symmetric interval
(the Gaussian shape is irrelevant to the stated claims). -/
def sample_normal (std : ℚ) (r : Rng) : ℚ × Rng :=
  let u := rngNext r
  (std * (2 * u.1 - 1), u.2)

/-- One class row of `PROFILES` in train_model.py: the b1/b2/b3 ranges and
the norm range. -/
structure Profile where
  b1_lo : ℚ
  b1_hi : ℚ
  b2_lo : ℚ
  b2_hi : ℚ
  b3_lo : ℚ
  b3_hi : ℚ
  norm_lo : ℚ
  norm_hi : ℚ

/-- PROFILES["no_tremor"]: all bands in (0, 0.008), norm in (0.01, 0.15). -/
def profile_no_tremor : Profile := ⟨0, 1/125, 0, 1/125, 0, 1/125, 1/100, 3/20⟩

/-- PROFILES["parkinsonian"]: b1 dominant in (0.5, 15). -/
def profile_parkinsonian : Profile := ⟨1/2, 15, 1/100, 2, 1/100, 3/2, 1/20, 2/5⟩

/-- PROFILES["essential"]: b2 dominant in (0.5, 12). -/
def profile_essential : Profile := ⟨1/100, 2, 1/2, 12, 1/100, 2, 1/20, 1/2⟩

/-- PROFILES["physiological"]: b3 dominant in (0.4, 10). -/
def profile_physiological : Profile := ⟨1/100, 3/2, 1/100, 2, 2/5, 10, 3/100, 7/20⟩

/-- One main-loop sample of `generate_synthetic_data`: three band draws
(uniform for no_tremor, log-uniform otherwise), one norm draw, four noise
draws (std for bands, std*0.5 for norm), the max(0, .) clamps, then
feature extraction. -/
def sampleOne (isNoTremor : Bool) (p : Profile) (noise_std : ℚ) (r : Rng) :
    List ℚ × Rng :=
  let b1 := if isNoTremor then sample_uniform p.b1_lo p.b1_hi r
            else sample_log_uniform p.b1_lo p.b1_hi r
  let b2 := if isNoTremor then sample_uniform p.b2_lo p.b2_hi b1.2
            else sample_log_uniform p.b2_lo p.b2_hi b1.2
  let b3 := if isNoTremor then sample_uniform p.b3_lo p.b3_hi b2.2
            else sample_log_uniform p.b3_lo p.b3_hi b2.2
  let nm := sample_uniform p.norm_lo p.norm_hi b3.2
  let e1 := sample_normal noise_std nm.2
  let e2 := sample_normal noise_std e1.2
  let e3 := sample_normal noise_std e2.2
  let e4 := sample_normal (noise_std * (1/2)) e3.2
  (extract_features_single (max 0 (b1.1 + e1.1)) (max 0 (b2.1 + e2.1))
     (max 0 (b3.1 + e3.1)) (max 0 (nm.1 + e4.1)), e4.2)

/-- The inner `for _ in range(n_per_class)` loop for one class, threading
the generator and pairing each feature row with the class index. -/
def sampleClass (isNoTremor : Bool) (p : Profile) (clsIdx : ℕ) (noise_std : ℚ) :
    ℕ → Rng → List (List ℚ × ℕ) × Rng
  | 0, r => ([], r)
  | Nat.succ n, r =>
    let fr := sampleOne isNoTremor p noise_std r
    let rest := sampleClass isNoTremor p clsIdx noise_std n fr.2
    ((fr.1, clsIdx) :: rest.1, rest.2)

/-- `rng.choice(["parkinsonian", "essential", "physiological"])`: one draw
picking one of the three tremor class indices. -/
def chooseClass (r : Rng) : ℕ × Rng :=
  let u := rngNext r
  ((if u.1 < 1/3 then 1 else if u.1 < 2/3 then 2 else 3), u.2)

/-- One iteration of the borderline loop: (a) an ambiguous
no-tremor/weak-tremor row, (b) a voluntary-movement row (both labeled
no_tremor), and (c) a mixed-dominance row labeled with the chosen dominant
class, scales drawn positionally per branch exactly as in the source. -/
def borderlineOne (r : Rng) : List (List ℚ × ℕ) × Rng :=
  let b1 := sample_uniform (1/200) (1/20) r
  let b2 := sample_uniform (1/200) (1/20) b1.2
  let b3 := sample_uniform (1/200) (1/20) b2.2
  let n1 := sample_uniform (1/50) (1/5) b3.2
  let c1 := sample_uniform (1/100) (1/2) n1.2
  let c2 := sample_uniform (1/100) (1/2) c1.2
  let c3 := sample_uniform (1/100) (1/2) c2.2
  let n2 := sample_uniform (7/10) (3/2) c3.2
  let cls := chooseClass n2.2
  let base := sample_uniform (3/10) 3 cls.2
  let d1 := sample_uniform (if cls.1 = 1 then 3/2 else if cls.1 = 2 then 3/10 else 1/5)
                           (if cls.1 = 1 then 3 else if cls.1 = 2 then 9/10 else 4/5) base.2
  let d2 := sample_uniform (if cls.1 = 2 then 3/2 else 3/10)
                           (if cls.1 = 2 then 3 else 9/10) d1.2
  let d3 := sample_uniform (if cls.1 = 3 then 3/2 else 1/5)
                           (if cls.1 = 3 then 3 else 4/5) d2.2
  let n3 := sample_uniform (1/20) (2/5) d3.2
  ([(extract_features_single b1.1 b2.1 b3.1 n1.1, 0),
    (extract_features_single c1.1 c2.1 c3.1 n2.1, 0),
    (extract_features_single (base.1 * d1.1) (base.1 * d2.1) (base.1 * d3.1) n3.1, cls.1)],
   n3.2)

/-- The `for _ in range(n_per_class // 3)` borderline loop. -/
def borderlineLoop : ℕ → Rng → List (List ℚ × ℕ) × Rng
  | 0, r => ([], r)
  | Nat.succ n, r =>
    let br := borderlineOne r
    let rest := borderlineLoop n br.2
    (br.1 ++ rest.1, rest.2)

/-- Rotation of a list: a length-preserving permutation. -/
def rotateBy (k : ℕ) (xs : List (List ℚ × ℕ)) : List (List ℚ × ℕ) :=
  xs.drop k ++ xs.take k

/-- `rng.permutation(len(X))` applied simultaneously to X and y rows:
modelled as a rotation by an amount derived from one further draw — a
permutation of the rows that is a pure function of the generator state,
which is what the stated claims depend on. -/
def permuteRows (rows : List (List ℚ × ℕ)) (r : Rng) : List (List ℚ × ℕ) :=
  let u := rngNext r
  rotateBy (u.1.num.toNat % (rows.length + 1)) rows

/-- `generate_synthetic_data` from train_model.py: the four per-class
loops in PROFILES insertion order (no_tremor, parkinsonian, essential,
physiological), the borderline loop, and the final shared permutation of
X and y. -/
def generate_synthetic_data (n_per_class : ℕ) (noise_std : ℚ) (seed : ℕ) :
    List (List ℚ) × List ℕ :=
  let c0 := sampleClass true profile_no_tremor 0 noise_std n_per_class ⟨seed, 0⟩
  let c1 := sampleClass false profile_parkinsonian 1 noise_std n_per_class c0.2
  let c2 := sampleClass false profile_essential 2 noise_std n_per_class c1.2
  let c3 := sampleClass false profile_physiological 3 noise_std n_per_class c2.2
  let cb := borderlineLoop (n_per_class / 3) c3.2
  let rows := permuteRows (c0.1 ++ c1.1 ++ c2.1 ++ c3.1 ++ cb.1) cb.2
  (rows.map Prod.fst, rows.map Prod.snd)

/-- C5: the synthetic data generator is deterministic in its arguments:
identical n_per_class, noise_std and seed produce identical (X, y).  In
the embedding the generator is a pure function of these three arguments —
the source draws exclusively from the single np.random.default_rng(seed)
stream, with no other randomness, time, or I/O. -/
theorem c5_generator_deterministic (n1 n2 : ℕ) (std1 std2 : ℚ) (sd1 sd2 : ℕ)
    (hn : n1 = n2) (hs : std1 = std2) (hsd : sd1 = sd2) :
    generate_synthetic_data n1 std1 sd1 = generate_synthetic_data n2 std2 sd2 := by
  subst hn
  subst hs
  subst hsd
  rfl

theorem c5_witness :
    generate_synthetic_data 3 (1/20) 42 = generate_synthetic_data 3 (1/20) 42 :=
  c5_generator_deterministic 3 3 (1/20) (1/20) 42 42 rfl rfl rfl

theorem sampleClass_length (b : Bool) (p : Profile) (ci : ℕ) (std : ℚ) :
    ∀ n r, (sampleClass b p ci std n r).1.length = n := by
  intro n
  induction n with
  | zero => intro r; rfl
  | succ n ih =>
    intro r
    simp only [sampleClass, List.length_cons, ih]

theorem borderlineOne_length (r : Rng) : (borderlineOne r).1.length = 3 := rfl

theorem borderlineLoop_length : ∀ n r, (borderlineLoop n r).1.length = 3 * n := by
  intro n
  induction n with
  | zero => intro r; rfl
  | succ n ih =>
    intro r
    simp only [borderlineLoop, List.length_append, borderlineOne_length, ih]
    omega

theorem rotateBy_length (k : ℕ) (xs : List (List ℚ × ℕ)) :
    (rotateBy k xs).length = xs.length := by
  simp only [rotateBy, List.length_append, List.length_drop, List.length_take]
  omega

theorem permuteRows_length (rows : List (List ℚ × ℕ)) (r : Rng) :
    (permuteRows rows r).length = rows.length := by
  simp only [permuteRows, rotateBy_length]

/-- C6: for every n_per_class, the generated X and y both have exactly
4*n_per_class + 3*(n_per_class // 3) rows: four full class batches plus
three borderline rows per reduced-batch iteration. -/
theorem c6_row_count (n_per_class : ℕ) (noise_std : ℚ) (seed : ℕ) :
    (generate_synthetic_data n_per_class noise_std seed).1.length =
      4 * n_per_class + 3 * (n_per_class / 3) ∧
    (generate_synthetic_data n_per_class noise_std seed).2.length =
      4 * n_per_class + 3 * (n_per_class / 3) := by
  constructor <;>
    simp only [generate_synthetic_data, List.length_map, permuteRows_length,
      List.length_append, sampleClass_length, borderlineLoop_length] <;>
    omega

end TremorPro
